import Mathlib

/-!
Shallow embedding of the bug-record mapping utilities of this repository:
`devops.py` (`get_work_item` and `_map_severity_to_priority`) and
`github_issues.py` (`convert_bug_to_github_issue`), together with theorems
about the mapping behaviour they implement.

Conventions of the embedding:
* A bug record (one entry of `bugs.json`) is a flat mapping with optional
  keys; an absent key is `none`, and Python `bug.get(k, default)` becomes
  `Option.getD`.
* The module-global dictionary `BUGS` (built by `load_bugs_from_json`) is
  passed to `get_work_item` explicitly as an association list.
* `datetime.datetime.now().isoformat()` is passed in as the string `now`.
* The JSON dictionaries built by `devops.py` are values of the inductive
  type `JVal`, so that a dictionary really can lack a key (the fallback
  branch of `get_work_item` builds a smaller `fields` dictionary than the
  found-bug branch).
-/

/-- A bug record loaded from `bugs.json`: a flat mapping with optional keys.
`none` models an absent key. -/
structure BugRecord where
  id : Option String := none
  title : Option String := none
  status : Option String := none
  severity : Option String := none
  assignedTo : Option String := none
  description : Option String := none
  location : Option String := none
  lineNumbers : Option (List Int) := none
  expectedBehavior : Option String := none
  actualBehavior : Option String := none
  steps : Option (List String) := none
  fix : Option String := none
deriving DecidableEq

/-- The empty bug record: no field set at all. -/
def emptyBugRecord : BugRecord := {}

/-- JSON-like values, used for the work-item dictionaries built by
`devops.py` (the JSON literals `4.5` and `16.0` are modeled as rationals). -/
inductive JVal where
  | str : String → JVal
  | int : Int → JVal
  | rat : Rat → JVal
  | arr : List JVal → JVal
  | obj : List (String × JVal) → JVal

/-- The `severity_map` dictionary of `_map_severity_to_priority` in
`devops.py`. -/
def severity_map : List (String × Int) :=
  [("Critical", 1), ("High", 2), ("Medium", 3), ("Low", 4)]

/-- `devops.py` `_map_severity_to_priority`: map a severity string to a
priority number, defaulting to 3 (Medium) if the severity is not
recognized (`severity_map.get(severity, 3)`). -/
def map_severity_to_priority (severity : String) : Int :=
  (severity_map.lookup severity).getD 3

/-- Python `str.lower()` restricted to its ASCII action (all names in this
repository are ASCII): lowercase every character. -/
def pyLower (s : String) : String := String.mk (s.data.map Char.toLower)

/-- Python `str.replace(' ', '.')` for the one-character pattern: replace
every space with a dot. -/
def pyReplaceSpaceDot (s : String) : String :=
  String.mk (s.data.map (fun c => if c = ' ' then '.' else c))

/-- The loop of `convert_bug_to_github_issue` (and of the summary printer of
`devops.py`) that renders the steps `for i, step in enumerate(steps, 1)` as
the concatenation of the lines `f"{i}. {step}\n"`. -/
def stepsLines : Nat → List String → String
  | _, [] => ""
  | i, step :: rest => toString i ++ ". " ++ step ++ "\n" ++ stepsLines (i + 1) rest

/-- The `labels` local of `convert_bug_to_github_issue`:
`[bug.get('severity', ''), bug.get('status', '')]` with the empty (falsy)
labels removed. -/
def issueLabels (bug : BugRecord) : List String :=
  [bug.severity.getD "", bug.status.getD ""].filter (fun label => label != "")

/-- The `location` local of `convert_bug_to_github_issue`:
`bug.get('location', 'Unknown')`, extended with the comma-joined line
numbers when `'lineNumbers' in bug and bug['lineNumbers']`. -/
def issueLocation (bug : BugRecord) : String :=
  let location := bug.location.getD "Unknown"
  match bug.lineNumbers with
  | some lineNumbers =>
    if lineNumbers.isEmpty then location
    else location ++ " (Lines: " ++ String.intercalate ", " (lineNumbers.map toString) ++ ")"
  | none => location

/-- The `steps_to_reproduce` local of `convert_bug_to_github_issue`: empty
unless `'steps' in bug and bug['steps']`, otherwise a header followed by the
numbered step lines. -/
def issueStepsBlock (bug : BugRecord) : String :=
  match bug.steps with
  | some steps =>
    if steps.isEmpty then ""
    else "\n### Steps to Reproduce\n" ++ stepsLines 1 steps
  | none => ""

/-- The `body` f-string of `convert_bug_to_github_issue`. -/
def issueBody (bug : BugRecord) : String :=
  "## Bug Description\n" ++ bug.description.getD "No description provided" ++
  "\n\n### Location\n" ++ issueLocation bug ++
  "\n\n" ++ issueStepsBlock bug ++
  "\n### Expected Behavior\n" ++ bug.expectedBehavior.getD "Not specified" ++
  "\n\n### Actual Behavior\n" ++ bug.actualBehavior.getD "Not specified" ++
  "\n\n### Proposed Fix\n" ++ bug.fix.getD "No fix proposed" ++
  "\n\n### Assigned To\n" ++ bug.assignedTo.getD "Unassigned" ++ "\n"

/-- The GitHub issue payload built by `convert_bug_to_github_issue`. -/
structure IssuePayload where
  title : String
  body : String
  labels : List String
deriving DecidableEq

/-- `github_issues.py` `convert_bug_to_github_issue`: convert a bug from the
`bugs.json` format to the GitHub issue format. -/
def convert_bug_to_github_issue (bug : BugRecord) : IssuePayload :=
  { title := bug.id.getD "BUG" ++ ": " ++ bug.title.getD "Untitled Bug",
    body := issueBody bug,
    labels := issueLabels bug }

/-- The hard-coded `SAMPLE_WORK_ITEMS` dictionary of `devops.py`. -/
def SAMPLE_WORK_ITEMS : List (String × JVal) :=
  [("12345", .obj [
    ("id", .int 12345),
    ("rev", .int 5),
    ("fields", .obj [
      ("System.Id", .int 12345),
      ("System.Title", .str "Fix pagination issue on record list"),
      ("System.State", .str "Active"),
      ("System.CreatedDate", .str "2025-05-15T09:30:45.123Z"),
      ("System.CreatedBy", .obj [
        ("displayName", .str "Brad Johnson"),
        ("uniqueName", .str "brad.johnson@company.com"),
        ("id", .str "a1b2c3d4-e5f6-7890-1234-567890abcdef")]),
      ("System.AssignedTo", .obj [
        ("displayName", .str "Brad Johnson"),
        ("uniqueName", .str "brad.johnson@company.com"),
        ("id", .str "a1b2c3d4-e5f6-7890-1234-567890abcdef")]),
      ("System.WorkItemType", .str "User Story"),
      ("System.Description", .str "Users are reporting that the pagination controls don\x27t work correctly on the record list page. When clicking to the next page, the same records are shown again."),
      ("System.Tags", .str "Bug, Frontend, UI"),
      ("Microsoft.VSTS.Common.Priority", .int 2),
      ("Microsoft.VSTS.Common.Severity", .str "2 - Medium"),
      ("Custom.Department", .str "Engineering"),
      ("Custom.EstimatedHours", .rat 4.5)]),
    ("relations", .arr [
      .obj [
        ("rel", .str "System.LinkTypes.Hierarchy-Forward"),
        ("url", .str "https://dev.azure.com/organization/project/_apis/wit/workItems/12346"),
        ("attributes", .obj [("name", .str "Child")])]]),
    ("_links", .obj [
      ("self", .obj [
        ("href", .str "https://dev.azure.com/organization/project/_apis/wit/workItems/12345")]),
      ("workItemUpdates", .obj [
        ("href", .str "https://dev.azure.com/organization/project/_apis/wit/workItems/12345/updates")]),
      ("html", .obj [
        ("href", .str "https://dev.azure.com/organization/project/_workitems/edit/12345")])]),
    ("url", .str "https://dev.azure.com/organization/project/_apis/wit/workItems/12345")]),
   ("54321", .obj [
    ("id", .int 54321),
    ("rev", .int 3),
    ("fields", .obj [
      ("System.Id", .int 54321),
      ("System.Title", .str "Implement user authentication with OAuth"),
      ("System.State", .str "New"),
      ("System.CreatedDate", .str "2025-05-10T14:22:33.456Z"),
      ("System.CreatedBy", .obj [
        ("displayName", .str "Jane Smith"),
        ("uniqueName", .str "jane.smith@company.com"),
        ("id", .str "z9y8x7w6-v5u4-3210-9876-543210fedcba")]),
      ("System.AssignedTo", .obj [
        ("displayName", .str "Brad Johnson"),
        ("uniqueName", .str "brad.johnson@company.com"),
        ("id", .str "a1b2c3d4-e5f6-7890-1234-567890abcdef")]),
      ("System.WorkItemType", .str "Feature"),
      ("System.Description", .str "Implement OAuth 2.0 authentication flow for the application to allow users to sign in with their Google, Microsoft, or Facebook accounts."),
      ("System.Tags", .str "Security, Authentication, Backend"),
      ("Microsoft.VSTS.Common.Priority", .int 1),
      ("Microsoft.VSTS.Common.Severity", .str "1 - Critical"),
      ("Custom.Department", .str "Security"),
      ("Custom.EstimatedHours", .rat 16.0)]),
    ("relations", .arr [
      .obj [
        ("rel", .str "System.LinkTypes.Hierarchy-Reverse"),
        ("url", .str "https://dev.azure.com/organization/project/_apis/wit/workItems/54310"),
        ("attributes", .obj [("name", .str "Parent")])]]),
    ("_links", .obj [
      ("self", .obj [
        ("href", .str "https://dev.azure.com/organization/project/_apis/wit/workItems/54321")]),
      ("workItemUpdates", .obj [
        ("href", .str "https://dev.azure.com/organization/project/_apis/wit/workItems/54321/updates")]),
      ("html", .obj [
        ("href", .str "https://dev.azure.com/organization/project/_workitems/edit/54321")])]),
    ("url", .str "https://dev.azure.com/organization/project/_apis/wit/workItems/54321")])]

/-- `devops.py` `get_work_item`: get bug details converted to Azure DevOps
work item format.  The module-global `BUGS` dictionary is passed explicitly
as `bugs`; `pat` is accepted and unused, exactly as in the source; the value
of `datetime.datetime.now().isoformat()` is passed as `now`. -/
def get_work_item (bugs : List (String × BugRecord)) (bug_id : String)
    (organization : String) (project : String) (pat : Option String) (now : String) : JVal :=
  match bugs.lookup bug_id with
  | some bug =>
    .obj [
      ("id", .str bug_id),
      ("rev", .int 1),
      ("fields", .obj [
        ("System.Id", .str bug_id),
        ("System.Title", .str (bug.title.getD "No Title")),
        ("System.State", .str (bug.status.getD "Unknown")),
        ("System.CreatedDate", .str now),
        ("System.CreatedBy", .obj [
          ("displayName", .str "Bug Creator"),
          ("uniqueName", .str "bug.creator@company.com"),
          ("id", .str "a1b2c3d4-e5f6-7890-1234-567890abcdef")]),
        ("System.AssignedTo", .obj [
          ("displayName", .str (bug.assignedTo.getD "Unassigned")),
          ("uniqueName", .str (pyReplaceSpaceDot (pyLower (bug.assignedTo.getD "unassigned")) ++ "@company.com")),
          ("id", .str "a1b2c3d4-e5f6-7890-1234-567890abcdef")]),
        ("System.WorkItemType", .str "Bug"),
        ("System.Description", .str (bug.description.getD "No description")),
        ("System.Tags", .str (bug.severity.getD "Unknown")),
        ("Microsoft.VSTS.Common.Priority", .int (map_severity_to_priority (bug.severity.getD "Unknown"))),
        ("Microsoft.VSTS.Common.Severity", .str (bug.severity.getD "Unknown")),
        ("Custom.Location", .str (bug.location.getD "Unknown")),
        ("Custom.LineNumbers", .arr ((bug.lineNumbers.getD []).map JVal.int)),
        ("Custom.ExpectedBehavior", .str (bug.expectedBehavior.getD "Unknown")),
        ("Custom.ActualBehavior", .str (bug.actualBehavior.getD "Unknown")),
        ("Custom.Steps", .arr ((bug.steps.getD []).map JVal.str)),
        ("Custom.Fix", .str (bug.fix.getD "No fix proposed"))]),
      ("_links", .obj [
        ("self", .obj [
          ("href", .str ("https://dev.azure.com/" ++ organization ++ "/" ++ project ++ "/_apis/wit/workItems/" ++ bug_id))]),
        ("html", .obj [
          ("href", .str ("https://dev.azure.com/" ++ organization ++ "/" ++ project ++ "/_workitems/edit/" ++ bug_id))])]),
      ("url", .str ("https://dev.azure.com/" ++ organization ++ "/" ++ project ++ "/_apis/wit/workItems/" ++ bug_id))]
  | none =>
    match SAMPLE_WORK_ITEMS.lookup bug_id with
    | some item => item
    | none =>
      .obj [
        ("id", .str bug_id),
        ("rev", .int 1),
        ("fields", .obj [
          ("System.Id", .str bug_id),
          ("System.Title", .str ("Unknown bug " ++ bug_id)),
          ("System.State", .str "New"),
          ("System.CreatedDate", .str now),
          ("System.CreatedBy", .obj [
            ("displayName", .str "System"),
            ("uniqueName", .str "system@company.com"),
            ("id", .str "a1b2c3d4-e5f6-7890-1234-567890abcdef")]),
          ("System.WorkItemType", .str "Bug"),
          ("System.Description", .str ("No bug found with ID " ++ bug_id ++ ".")),
          ("Microsoft.VSTS.Common.Priority", .int 3)]),
        ("_links", .obj [
          ("self", .obj [
            ("href", .str ("https://dev.azure.com/" ++ organization ++ "/" ++ project ++ "/_apis/wit/workItems/" ++ bug_id))])])]

/-- The `fields` sub-dictionary of a work item, when present. -/
def getFields (w : JVal) : Option (List (String × JVal)) :=
  match w with
  | .obj top =>
    match top.lookup "fields" with
    | some (.obj fs) => some fs
    | _ => none
  | _ => none

/-- Look a key up in the `fields` sub-dictionary of a work item. -/
def getField (w : JVal) (k : String) : Option JVal :=
  (getFields w).bind (fun fs => fs.lookup k)

/-- Look up a key of an object-valued field of the `fields` sub-dictionary
(for example the `displayName` of `System.AssignedTo`). -/
def getSubField (w : JVal) (k1 k2 : String) : Option JVal :=
  match getField w k1 with
  | some (.obj fs) => fs.lookup k2
  | _ => none

/-- The list of keys of the `fields` sub-dictionary of a work item, when
present. -/
def fieldKeys (w : JVal) : Option (List String) :=
  (getFields w).map (fun fs => fs.map Prod.fst)

/-- The fixed keys of the `fields` dictionary built by the found-bug branch
of `get_work_item`. -/
def workItemFieldKeys : List String :=
  ["System.Id", "System.Title", "System.State", "System.CreatedDate", "System.CreatedBy",
   "System.AssignedTo", "System.WorkItemType", "System.Description", "System.Tags",
   "Microsoft.VSTS.Common.Priority", "Microsoft.VSTS.Common.Severity", "Custom.Location",
   "Custom.LineNumbers", "Custom.ExpectedBehavior", "Custom.ActualBehavior", "Custom.Steps",
   "Custom.Fix"]

/-- Remove one key from a dictionary. -/
def removeKey (k : String) (fs : List (String × JVal)) : List (String × JVal) :=
  fs.filter (fun kv => kv.1 != k)

/-- Erase every `System.CreatedDate` entry from the sub-dictionaries of a
work item (in particular from its `fields`), leaving everything else in
place: two work items agree on every field other than the embedded current
timestamp exactly when their images under this function are equal. -/
def stripCreatedDate : JVal → JVal
  | .obj top =>
    .obj (top.map (fun kv =>
      match kv.2 with
      | .obj fs => (kv.1, JVal.obj (removeKey "System.CreatedDate" fs))
      | v => (kv.1, v)))
  | v => v

/-- Call-level view of `convert_bug_to_github_issue`: the source only reads
`bug` (through `bug.get(...)`) and contains no assignment to it or to any
other program state, so the record after the call is the record before; the
pair is (return value, record after the call). -/
def convert_bug_to_github_issue_call (bug : BugRecord) : IssuePayload × BugRecord :=
  (convert_bug_to_github_issue bug, bug)

/-- Call-level view of `get_work_item`: the source reads the collections
`BUGS` and `SAMPLE_WORK_ITEMS` and assigns to neither, so both collections
after the call equal those before; the pair is (return value, state after
the call). -/
def get_work_item_call (bugs : List (String × BugRecord)) (bug_id : String)
    (organization : String) (project : String) (pat : Option String) (now : String) :
    JVal × (List (String × BugRecord) × List (String × JVal)) :=
  (get_work_item bugs bug_id organization project pat now, (bugs, SAMPLE_WORK_ITEMS))

/-- One numbered line per step, starting at number `k`: the lines the spec
describes for the steps section of the issue body. -/
def numberedFrom : Nat → List String → List String
  | _, [] => []
  | k, step :: rest => (toString k ++ ". " ++ step ++ "\n") :: numberedFrom (k + 1) rest

/-- A bug with a non-empty steps list, used as the concrete example input of
several witnesses. -/
def exampleBug : BugRecord :=
  { id := some "BUG-7", title := some "Crash on save", severity := some "High",
    assignedTo := some "John Doe", steps := some ["Open the editor", "Press save"] }

/-- A bug whose severity and status coincide, exhibiting a duplicate label. -/
def duplicateLabelBug : BugRecord :=
  { severity := some "Open", status := some "Open" }

/-- The concrete example record of the spec:
`{id:"BUG-001", title:"Login fails", severity:"Critical", status:"Open"}`. -/
def exampleBug001 : BugRecord :=
  { id := some "BUG-001", title := some "Login fails",
    severity := some "Critical", status := some "Open" }

/-- Helper: concatenation of strings is associative. -/
theorem string_append_assoc (a b c : String) : a ++ b ++ c = a ++ (b ++ c) := by
  rcases a with ⟨da⟩
  rcases b with ⟨db⟩
  rcases c with ⟨dc⟩
  show String.mk (da ++ db ++ dc) = String.mk (da ++ (db ++ dc))
  rw [List.append_assoc]

/-- C1: the severity-to-priority mapping used by `get_work_item` sends
"Critical" to 1, "High" to 2, "Medium" to 3, "Low" to 4, and every other
string — the empty string included — to 3. -/
theorem severity_priority_table :
    (map_severity_to_priority "Critical" = 1 ∧ map_severity_to_priority "High" = 2 ∧
     map_severity_to_priority "Medium" = 3 ∧ map_severity_to_priority "Low" = 4 ∧
     map_severity_to_priority "" = 3) ∧
    ∀ s : String, s ≠ "Critical" → s ≠ "High" → s ≠ "Medium" → s ≠ "Low" →
      map_severity_to_priority s = 3 := by
  refine ⟨⟨rfl, rfl, rfl, rfl, rfl⟩, ?_⟩
  intro s h1 h2 h3 h4
  have e1 : (s == "Critical") = false := by simp [h1]
  have e2 : (s == "High") = false := by simp [h2]
  have e3 : (s == "Medium") = false := by simp [h3]
  have e4 : (s == "Low") = false := by simp [h4]
  simp [map_severity_to_priority, severity_map, List.lookup, e1, e2, e3, e4]

/-- Witness for C1: a severity string outside the table gets priority 3. -/
theorem severity_priority_table_witness : map_severity_to_priority "Blocker" = 3 :=
  severity_priority_table.2 "Blocker" (by decide) (by decide) (by decide) (by decide)

/-- C6: on the spec's example record `{id:"BUG-001", title:"Login fails",
severity:"Critical", status:"Open"}`, `convert_bug_to_github_issue` returns
labels `["Critical", "Open"]` (the two non-empty values, with no other
label) and title `"BUG-001: Login fails"`. -/
theorem example_bug001_issue :
    (convert_bug_to_github_issue exampleBug001).labels = ["Critical", "Open"] ∧
    (convert_bug_to_github_issue exampleBug001).title = "BUG-001: Login fails" :=
  ⟨rfl, rfl⟩

/-- Counterexample to C4: when severity and status are both the non-empty
string "Open", the labels list of the produced issue is `["Open", "Open"]`,
which contains a duplicate — so the labels are not a set. -/
theorem labels_duplicate_counterexample :
    (convert_bug_to_github_issue duplicateLabelBug).labels = ["Open", "Open"] ∧
    ¬ (convert_bug_to_github_issue duplicateLabelBug).labels.Nodup :=
  ⟨rfl, by decide⟩

/-- C4 (amended): a string is a label of the issue produced by
`convert_bug_to_github_issue` exactly when it is non-empty and is the
record's severity or status value; the labels are a list in the order
[severity, status], not a deduplicated set. -/
theorem labels_membership (bug : BugRecord) (label : String) :
    label ∈ (convert_bug_to_github_issue bug).labels ↔
      label ≠ "" ∧ (bug.severity.getD "" = label ∨ bug.status.getD "" = label) := by
  show label ∈ issueLabels bug ↔ _
  simp only [issueLabels, List.mem_filter, List.mem_cons, List.not_mem_nil, or_false,
    bne_iff_ne, ne_eq]
  constructor
  · rintro ⟨h | h, hne⟩
    · exact ⟨hne, Or.inl h.symm⟩
    · exact ⟨hne, Or.inr h.symm⟩
  · rintro ⟨hne, h | h⟩
    · exact ⟨Or.inl h.symm, hne⟩
    · exact ⟨Or.inr h.symm, hne⟩

/-- C9: neither mapper mutates its input: the record passed to
`convert_bug_to_github_issue` and the bug collection read by `get_work_item`
(together with the sample work items) are the same after the call as before,
key for key and value for value. -/
theorem mapper_frame_no_mutation (bug : BugRecord) (bugs : List (String × BugRecord))
    (bug_id organization project : String) (pat : Option String) (now : String) :
    (convert_bug_to_github_issue_call bug).2 = bug ∧
    (get_work_item_call bugs bug_id organization project pat now).2 = (bugs, SAMPLE_WORK_ITEMS) ∧
    ∀ k : String,
      ((get_work_item_call bugs bug_id organization project pat now).2.1).lookup k = bugs.lookup k :=
  ⟨rfl, rfl, fun _ => rfl⟩

/-- C2: `get_work_item` applied to a bug record with no fields set returns a
work item carrying every default placeholder: state "Unknown", assigned-to
display name "Unassigned", priority 3, title "No Title", description
"No description", tags/severity/location/expected/actual "Unknown", and fix
"No fix proposed". -/
theorem empty_record_work_item_defaults (bug_id organization project : String)
    (pat : Option String) (now : String) :
    getField (get_work_item [(bug_id, emptyBugRecord)] bug_id organization project pat now) "System.State" = some (.str "Unknown") ∧
    getSubField (get_work_item [(bug_id, emptyBugRecord)] bug_id organization project pat now) "System.AssignedTo" "displayName" = some (.str "Unassigned") ∧
    getField (get_work_item [(bug_id, emptyBugRecord)] bug_id organization project pat now) "Microsoft.VSTS.Common.Priority" = some (.int 3) ∧
    getField (get_work_item [(bug_id, emptyBugRecord)] bug_id organization project pat now) "System.Title" = some (.str "No Title") ∧
    getField (get_work_item [(bug_id, emptyBugRecord)] bug_id organization project pat now) "System.Description" = some (.str "No description") ∧
    getField (get_work_item [(bug_id, emptyBugRecord)] bug_id organization project pat now) "System.Tags" = some (.str "Unknown") ∧
    getField (get_work_item [(bug_id, emptyBugRecord)] bug_id organization project pat now) "Microsoft.VSTS.Common.Severity" = some (.str "Unknown") ∧
    getField (get_work_item [(bug_id, emptyBugRecord)] bug_id organization project pat now) "Custom.Location" = some (.str "Unknown") ∧
    getField (get_work_item [(bug_id, emptyBugRecord)] bug_id organization project pat now) "Custom.ExpectedBehavior" = some (.str "Unknown") ∧
    getField (get_work_item [(bug_id, emptyBugRecord)] bug_id organization project pat now) "Custom.ActualBehavior" = some (.str "Unknown") ∧
    getField (get_work_item [(bug_id, emptyBugRecord)] bug_id organization project pat now) "Custom.Fix" = some (.str "No fix proposed") := by
  have h : List.lookup bug_id [(bug_id, emptyBugRecord)] = some emptyBugRecord := by
    simp [List.lookup]
  simp only [get_work_item, h]
  exact ⟨rfl, rfl, rfl, rfl, rfl, rfl, rfl, rfl, rfl, rfl, rfl⟩

/-- C3: for every bug_id found in the loaded bug collection, the work item
built by `get_work_item` has a `fields` dictionary with the full fixed key
set — every output field is populated (by the input value or its default)
and no key is missing. -/
theorem work_item_total_keys (bugs : List (String × BugRecord))
    (bug_id organization project : String) (pat : Option String) (now : String)
    (bug : BugRecord) (h : bugs.lookup bug_id = some bug) :
    fieldKeys (get_work_item bugs bug_id organization project pat now) = some workItemFieldKeys := by
  simp only [get_work_item, h]
  rfl

/-- Witness for C3: the example bug, looked up in a concrete collection. -/
theorem work_item_total_keys_witness :
    fieldKeys (get_work_item [("BUG-7", exampleBug)] "BUG-7" "organization" "project" none
      "2025-01-01T00:00:00") = some workItemFieldKeys :=
  work_item_total_keys [("BUG-7", exampleBug)] "BUG-7" "organization" "project" none
    "2025-01-01T00:00:00" exampleBug rfl

/-- C7: in the work item built by `get_work_item` for a found bug, the
assigned-to email (`uniqueName`) is the display name lowercased with spaces
replaced by dots, followed by the fixed domain `@company.com`. -/
theorem assigned_email_from_display_name (bugs : List (String × BugRecord))
    (bug_id organization project : String) (pat : Option String) (now : String)
    (bug : BugRecord) (h : bugs.lookup bug_id = some bug) :
    ∃ dn : String,
      getSubField (get_work_item bugs bug_id organization project pat now)
        "System.AssignedTo" "displayName" = some (.str dn) ∧
      getSubField (get_work_item bugs bug_id organization project pat now)
        "System.AssignedTo" "uniqueName" =
        some (.str (pyReplaceSpaceDot (pyLower dn) ++ "@company.com")) := by
  refine ⟨bug.assignedTo.getD "Unassigned", ?_, ?_⟩
  · simp only [get_work_item, h]
    rfl
  · simp only [get_work_item, h]
    rcases ha : bug.assignedTo with _ | a
    · rfl
    · rfl

/-- Witness for C7: assignee "John Doe" becomes john.doe@company.com. -/
theorem assigned_email_from_display_name_witness :
    ∃ dn : String,
      getSubField (get_work_item [("BUG-7", exampleBug)] "BUG-7" "organization" "project" none
        "2025-01-01T00:00:00") "System.AssignedTo" "displayName" = some (.str dn) ∧
      getSubField (get_work_item [("BUG-7", exampleBug)] "BUG-7" "organization" "project" none
        "2025-01-01T00:00:00") "System.AssignedTo" "uniqueName" =
        some (.str (pyReplaceSpaceDot (pyLower dn) ++ "@company.com")) :=
  assigned_email_from_display_name [("BUG-7", exampleBug)] "BUG-7" "organization" "project" none
    "2025-01-01T00:00:00" exampleBug rfl

/-- C10: for a bug_id neither in the loaded bug collection nor among the
hard-coded sample work items, `get_work_item` still returns a record, whose
`fields` carry `System.Id` equal to the requested id, title
`"Unknown bug {bug_id}"`, state "New" and priority 3, but omit the
`System.AssignedTo` and `Custom.*` keys that the found-bug branch always
populates. -/
theorem unknown_bug_fallback (bugs : List (String × BugRecord))
    (bug_id organization project : String) (pat : Option String) (now : String)
    (h1 : bugs.lookup bug_id = none) (h2 : SAMPLE_WORK_ITEMS.lookup bug_id = none) :
    getField (get_work_item bugs bug_id organization project pat now) "System.Id" = some (.str bug_id) ∧
    getField (get_work_item bugs bug_id organization project pat now) "System.Title" = some (.str ("Unknown bug " ++ bug_id)) ∧
    getField (get_work_item bugs bug_id organization project pat now) "System.State" = some (.str "New") ∧
    getField (get_work_item bugs bug_id organization project pat now) "Microsoft.VSTS.Common.Priority" = some (.int 3) ∧
    getField (get_work_item bugs bug_id organization project pat now) "System.AssignedTo" = none ∧
    getField (get_work_item bugs bug_id organization project pat now) "Custom.Location" = none ∧
    getField (get_work_item bugs bug_id organization project pat now) "Custom.LineNumbers" = none ∧
    getField (get_work_item bugs bug_id organization project pat now) "Custom.ExpectedBehavior" = none ∧
    getField (get_work_item bugs bug_id organization project pat now) "Custom.ActualBehavior" = none ∧
    getField (get_work_item bugs bug_id organization project pat now) "Custom.Steps" = none ∧
    getField (get_work_item bugs bug_id organization project pat now) "Custom.Fix" = none := by
  simp only [get_work_item, h1, h2]
  exact ⟨rfl, rfl, rfl, rfl, rfl, rfl, rfl, rfl, rfl, rfl, rfl⟩

/-- Witness for C10: a fresh id against an empty collection. -/
theorem unknown_bug_fallback_witness :
    getField (get_work_item [] "BUG-999" "organization" "project" none "2025-01-01T00:00:00") "System.Id" = some (.str "BUG-999") ∧
    getField (get_work_item [] "BUG-999" "organization" "project" none "2025-01-01T00:00:00") "System.Title" = some (.str ("Unknown bug " ++ "BUG-999")) ∧
    getField (get_work_item [] "BUG-999" "organization" "project" none "2025-01-01T00:00:00") "System.State" = some (.str "New") ∧
    getField (get_work_item [] "BUG-999" "organization" "project" none "2025-01-01T00:00:00") "Microsoft.VSTS.Common.Priority" = some (.int 3) ∧
    getField (get_work_item [] "BUG-999" "organization" "project" none "2025-01-01T00:00:00") "System.AssignedTo" = none ∧
    getField (get_work_item [] "BUG-999" "organization" "project" none "2025-01-01T00:00:00") "Custom.Location" = none ∧
    getField (get_work_item [] "BUG-999" "organization" "project" none "2025-01-01T00:00:00") "Custom.LineNumbers" = none ∧
    getField (get_work_item [] "BUG-999" "organization" "project" none "2025-01-01T00:00:00") "Custom.ExpectedBehavior" = none ∧
    getField (get_work_item [] "BUG-999" "organization" "project" none "2025-01-01T00:00:00") "Custom.ActualBehavior" = none ∧
    getField (get_work_item [] "BUG-999" "organization" "project" none "2025-01-01T00:00:00") "Custom.Steps" = none ∧
    getField (get_work_item [] "BUG-999" "organization" "project" none "2025-01-01T00:00:00") "Custom.Fix" = none :=
  unknown_bug_fallback [] "BUG-999" "organization" "project" none "2025-01-01T00:00:00" rfl rfl

/-- C8: the mappers are deterministic up to the embedded timestamp: on equal
inputs, `convert_bug_to_github_issue` returns equal payloads, and two runs
of `get_work_item` at different clock readings return work items that agree
on every field other than `System.CreatedDate`. -/
theorem mapper_idempotent_modulo_timestamp (b1 b2 : BugRecord) (hb : b1 = b2)
    (bugs : List (String × BugRecord)) (bug_id organization project : String)
    (pat : Option String) (now1 now2 : String) :
    convert_bug_to_github_issue b1 = convert_bug_to_github_issue b2 ∧
    stripCreatedDate (get_work_item bugs bug_id organization project pat now1) =
      stripCreatedDate (get_work_item bugs bug_id organization project pat now2) := by
  subst hb
  refine ⟨rfl, ?_⟩
  rcases h : bugs.lookup bug_id with _ | bug
  · rcases h2 : SAMPLE_WORK_ITEMS.lookup bug_id with _ | item
    · simp only [get_work_item, h, h2]
      rfl
    · simp only [get_work_item, h, h2]
  · simp only [get_work_item, h]
    rfl

/-- Witness for C8: two runs over the example collection with different
timestamps. -/
theorem mapper_idempotent_modulo_timestamp_witness :
    convert_bug_to_github_issue exampleBug = convert_bug_to_github_issue exampleBug ∧
    stripCreatedDate (get_work_item [("BUG-7", exampleBug)] "BUG-7" "organization" "project" none
      "2025-01-01T00:00:00") =
      stripCreatedDate (get_work_item [("BUG-7", exampleBug)] "BUG-7" "organization" "project" none
        "2025-06-30T12:00:00") :=
  mapper_idempotent_modulo_timestamp exampleBug exampleBug rfl [("BUG-7", exampleBug)] "BUG-7"
    "organization" "project" none "2025-01-01T00:00:00" "2025-06-30T12:00:00"

/-- Helper: numbering preserves the number of lines. -/
theorem numberedFrom_length (l : List String) :
    ∀ k : Nat, (numberedFrom k l).length = l.length := by
  induction l with
  | nil => intro k; rfl
  | cons s rest ih => intro k; simp [numberedFrom, ih (k + 1)]

/-- Helper: line `i` (0-based) of `numberedFrom k l` is step `i` of `l`
numbered `k + i`. -/
theorem numberedFrom_getD (l : List String) :
    ∀ k i : Nat, i < l.length →
      (numberedFrom k l).getD i "" = toString (k + i) ++ ". " ++ l.getD i "" ++ "\n" := by
  induction l with
  | nil => intro k i hi; exact absurd hi (by simp)
  | cons s rest ih =>
    intro k i hi
    cases i with
    | zero => simp [numberedFrom]
    | succ j =>
      have hj : j < rest.length := by simpa using hi
      have hrec := ih (k + 1) j hj
      have e : k + 1 + j = k + (j + 1) := by omega
      calc (numberedFrom k (s :: rest)).getD (j + 1) ""
          = (numberedFrom (k + 1) rest).getD j "" := rfl
        _ = toString (k + 1 + j) ++ ". " ++ rest.getD j "" ++ "\n" := hrec
        _ = toString (k + (j + 1)) ++ ". " ++ (s :: rest).getD (j + 1) "" ++ "\n" := by
            rw [e, List.getD_cons_succ]

/-- Helper: the steps string rendered by the source loop is exactly the
concatenation of the numbered lines. -/
theorem stepsLines_eq_foldr (l : List String) :
    ∀ k : Nat, stepsLines k l = (numberedFrom k l).foldr (fun a b => a ++ b) "" := by
  induction l with
  | nil => intro k; rfl
  | cons s rest ih =>
    intro k
    show toString k ++ ". " ++ s ++ "\n" ++ stepsLines (k + 1) rest = _
    rw [numberedFrom, List.foldr_cons, ih (k + 1)]

/-- C5: for a bug with a non-empty steps sequence, the issue body built by
`convert_bug_to_github_issue` contains, right after the steps header, the
concatenation of one numbered line per step: the line for step `i`
(0-based) is numbered `i + 1`, steps appearing in their input order. -/
theorem issue_body_numbered_steps (bug : BugRecord) (l : List String)
    (hs : bug.steps = some l) (hne : l ≠ []) :
    ∃ pre post : String, ∃ lines : List String,
      (convert_bug_to_github_issue bug).body =
        pre ++ ("\n### Steps to Reproduce\n" ++ lines.foldr (fun a b => a ++ b) "") ++ post ∧
      lines.length = l.length ∧
      ∀ i : Nat, i < l.length →
        lines.getD i "" = toString (i + 1) ++ ". " ++ l.getD i "" ++ "\n" := by
  refine ⟨"## Bug Description\n" ++ bug.description.getD "No description provided" ++
      "\n\n### Location\n" ++ issueLocation bug ++ "\n\n",
    "\n### Expected Behavior\n" ++ bug.expectedBehavior.getD "Not specified" ++
      "\n\n### Actual Behavior\n" ++ bug.actualBehavior.getD "Not specified" ++
      "\n\n### Proposed Fix\n" ++ bug.fix.getD "No fix proposed" ++
      "\n\n### Assigned To\n" ++ bug.assignedTo.getD "Unassigned" ++ "\n",
    numberedFrom 1 l, ?_, numberedFrom_length l 1, ?_⟩
  · have hblock : issueStepsBlock bug = "\n### Steps to Reproduce\n" ++ stepsLines 1 l := by
      rcases l with _ | ⟨s0, rest⟩
      · exact absurd rfl hne
      · simp [issueStepsBlock, hs]
    show issueBody bug = _
    rw [issueBody, hblock, stepsLines_eq_foldr l 1]
    simp only [string_append_assoc]
  · intro i hi
    have hline := numberedFrom_getD l 1 i hi
    rwa [Nat.add_comm 1 i] at hline

/-- Witness for C5: the two steps of the example bug are rendered as the
numbered lines 1 and 2, in order. -/
theorem issue_body_numbered_steps_witness :
    ∃ pre post : String, ∃ lines : List String,
      (convert_bug_to_github_issue exampleBug).body =
        pre ++ ("\n### Steps to Reproduce\n" ++ lines.foldr (fun a b => a ++ b) "") ++ post ∧
      lines.length = (["Open the editor", "Press save"] : List String).length ∧
      ∀ i : Nat, i < (["Open the editor", "Press save"] : List String).length →
        lines.getD i "" =
          toString (i + 1) ++ ". " ++ (["Open the editor", "Press save"] : List String).getD i "" ++ "\n" :=
  issue_body_numbered_steps exampleBug ["Open the editor", "Press save"] rfl (by decide)
